import Mathlib

/-!
Verification of the Samruddhi-Automation ingest pipeline
(`src/app.py` and `src/daily_nav.py`) against its design specification.

The Python code is shallowly embedded: dynamic row dictionaries become the
`Row` structure with `Option String` fields, Python floats become exact
rationals (`ℚ`), Python `round(x, n)` becomes round-half-to-even on `ℚ`,
the Supabase tables become association lists, and a raw numeric cell that
`float()` rejects is the `Cell.bad` constructor.  A row-level exception that
the per-row `except: continue` swallows is modelled by the extractor
returning `none`.
-/

namespace Samruddhi

/-- The transaction action.  In `app.py` the `action` field of a row is the
string `'ADD'`, `'DEDUCT'`, or is left `None`; `UNKNOWN` embeds `None`. -/
inductive Action
  | ADD
  | DEDUCT
  | UNKNOWN
deriving DecidableEq, Repr

/-- A raw tabular cell as seen by `clean_float` in `app.py`:
`na` is a missing value / NaN (`pd.isna`), `num q` is a value `float()`
accepts with numeric value `q`, and `bad` is a value `float()` raises on
(a malformed numeric string). -/
inductive Cell
  | na
  | num (q : ℚ)
  | bad
deriving DecidableEq, Repr

/-- Embeds `clean_float` of `app.py`: NaN/missing gives `0.0`, a parsable
value gives its numeric value, and a `float()` failure is caught and gives
`0.0`. -/
def clean_float : Cell → ℚ
  | .na => 0
  | .num q => q
  | .bad => 0

/-- One normalized row as built by `process_rta_files` in `app.py`
(the dictionary `t`). -/
structure Row where
  pan : Option String
  name : Option String
  email : Option String
  phone : Option String
  scheme : Option String
  units : ℚ
  action : Action
  source_row : ℕ
deriving DecidableEq, Repr

/-- A persisted row of the `clients` table (identifier is `pan`). -/
structure Client where
  pan : Option String
  name : Option String
  email : Option String
  phone : Option String
deriving DecidableEq, Repr

/-- A persisted row of the `portfolio_snapshot` table (the key
`(pan, scheme_name)` is kept outside, in the store association list). -/
structure Position where
  total_units : ℚ
  nav : ℚ
  current_value : ℚ
deriving DecidableEq, Repr

/-- Python truthiness of an optional string: `None` and `""` are falsy. -/
def truthy : Option String → Bool
  | none => false
  | some s => !s.toList.isEmpty

/-- Removes every single-quote (code point 39) and double-quote (code point
34) character, embedding the chained
`.replace("'", "").replace('"', "")` of `clean_str`; for single-character
patterns Python `str.replace` is exactly a character filter. -/
def stripQuotes (s : String) : String :=
  String.mk (s.toList.filter (fun c => c != Char.ofNat 39 && c != Char.ofNat 34))

/-- Python `str.strip()`: drop whitespace from both ends. -/
def pyStrip (s : String) : String :=
  String.mk (((s.toList.dropWhile Char.isWhitespace).reverse.dropWhile
    Char.isWhitespace).reverse)

/-- Python `str.upper()` (ASCII case mapping). -/
def upperStr (s : String) : String := String.mk (s.toList.map Char.toUpper)

/-- Python `str.lower()` (ASCII case mapping). -/
def lowerStr (s : String) : String := String.mk (s.toList.map Char.toLower)

/-- Embeds `clean_str` of `app.py`: `None`/NaN and the literal string
`"nan"` (case-insensitively) give `None`; otherwise quotes are removed and
the result stripped, an empty result giving `None`. -/
def clean_str : Option String → Option String
  | none => none
  | some v =>
      if lowerStr v = "nan" then none
      else
        let s := pyStrip (stripQuotes v)
        if s.toList.isEmpty then none else some s

/-- `leadMatch pat l` is true when `pat` is an initial segment of `l`. -/
def leadMatch : List Char → List Char → Bool
  | [], _ => true
  | _ :: _, [] => false
  | a :: as, b :: bs => a == b && leadMatch as bs

/-- `hasSubstr pat l` is true when `pat` occurs contiguously inside `l`. -/
def hasSubstr (pat : List Char) : List Char → Bool
  | [] => pat.isEmpty
  | c :: rest => leadMatch pat (c :: rest) || hasSubstr pat rest

/-- Python's `pat in s` substring test. -/
def strContains (s pat : String) : Bool := hasSubstr pat.toList s.toList

/-- The keyword classifier shared by both ledger branches of
`process_rta_files`: uppercase the nature/description string, return `ADD`
on any credit keyword, else `DEDUCT` on any debit keyword, else leave the
action unset (`UNKNOWN`). -/
def classifyBy (credit debit : List String) (s : String) : Action :=
  if credit.any (fun k => strContains (upperStr s) k) then Action.ADD
  else if debit.any (fun k => strContains (upperStr s) k) then Action.DEDUCT
  else Action.UNKNOWN

/-- Credit keywords of the R33 ledger branch (`app.py` line 114). -/
def creditR33 : List String := ["PURCHASE", "SYSTEMATIC", "SWITCH IN", "REINVESTMENT"]

/-- Debit keywords of the R33 ledger branch (`app.py` line 115). -/
def debitR33 : List String := ["REDEMPTION", "TRANSFER", "SWITCH OUT"]

/-- Credit keywords of the KFIN ledger branch (`app.py` line 130). -/
def creditKfin : List String := ["PURCHASE", "S T P IN", "SWITCH IN"]

/-- Debit keywords of the KFIN ledger branch (`app.py` line 131). -/
def debitKfin : List String := ["SHIFT OUT", "REDEMPTION", "SWITCH OUT"]

/-- Action classification of the R33 transaction ledger branch. -/
def classifyR33 (s : String) : Action := classifyBy creditR33 debitR33 s

/-- Action classification of the KFIN transaction ledger branch. -/
def classifyKfinT (s : String) : Action := classifyBy creditKfin debitKfin s

/-- The KFIN ledger exclusion test (`app.py` line 125): the lowercased
cleaned description contains `"pledging"` or `"rej."`. -/
def kfinExcluded (desc : String) : Bool :=
  strContains desc "pledging" || strContains desc "rej."

/-- Embeds the R33 branch of the per-row extraction loop.  The code first
computes `clean_str(row.get('TRXN_TYPE_FLAG') or "").upper()`; when
`clean_str` yields `None` the `.upper()` call raises and the surrounding
`except: continue` skips the row, embedded as `none`.  Otherwise the row is
kept exactly when its name or pan is truthy. -/
def extractR33 (scheme name : Option String) (u : Cell) (nature : Option String)
    (srcRow : ℕ) : Option Row :=
  match clean_str (some (nature.getD "")) with
  | none => none
  | some nat =>
    let t : Row := ⟨none, clean_str name, none, none, clean_str scheme,
      clean_float u, classifyR33 nat, srcRow⟩
    if truthy t.name || truthy t.pan then some t else none

/-- Embeds the KFIN transaction branch of the per-row extraction loop.
The description is cleaned and lowercased (a `None` result raises on
`.lower()` and the row is skipped); a description containing an exclusion
keyword hits `continue` and drops the row; otherwise the row is kept
exactly when its name or pan is truthy. -/
def extractKfinT (name scheme : Option String) (u : Cell) (desc : Option String)
    (srcRow : ℕ) : Option Row :=
  match clean_str (some (desc.getD "")) with
  | none => none
  | some d0 =>
    let d := lowerStr d0
    if kfinExcluded d then none
    else
      let t : Row := ⟨none, clean_str name, none, none, clean_str scheme,
        clean_float u, classifyKfinT d, srcRow⟩
      if truthy t.name || truthy t.pan then some t else none

/-- The raw inputs of one R33 ledger row (the cells the branch reads). -/
structure R33Input where
  scheme : Option String
  name : Option String
  units : Cell
  nature : Option String
  srcRow : ℕ
deriving DecidableEq, Repr

/-- Extraction of one raw R33 input row. -/
def extractR33Row (i : R33Input) : Option Row :=
  extractR33 i.scheme i.name i.units i.nature i.srcRow

/-- The per-file row loop for an R33 ledger file: each row is extracted
independently, skipped rows contribute nothing, the rest are collected. -/
def processR33 (l : List R33Input) : List Row := l.filterMap extractR33Row

/-- The signed unit contribution of one row (`app.py` lines 198-200):
`-units` when the action is `DEDUCT`, `+units` otherwise. -/
def signedUnits (r : Row) : ℚ := if r.action = Action.DEDUCT then -r.units else r.units

/-- Whether a row belongs to the aggregation group of `(pan, scheme)`
(`portfolio_df` keeps rows with both fields present; `groupby` groups by
their values). -/
def rowMatches (pan scheme : String) (r : Row) : Bool :=
  decide (r.pan = some pan) && decide (r.scheme = some scheme)

/-- The aggregated net signed units of one `(pan, scheme)` group
(`app.py` lines 195-203).  Fidelity note: the Python code accumulates
`signed_units` in pandas float64; this embedding sums exactly in `ℚ`, so
it gives the ideal (drift-free) value of the group sum and does not model
the rounding of each intermediate float addition. -/
def aggregate (batch : List Row) (pan scheme : String) : ℚ :=
  ((batch.filter (rowMatches pan scheme)).map signedUnits).sum

/-- The `name_map` dictionary of `sync_to_db` step 1, built from the
persisted `clients` table only: every client with truthy name and pan
contributes `name.strip().upper() → pan`, a later client overwriting an
earlier one with the same key; `.get(key, None)` is the lookup. -/
def nameMapGet (clients : List Client) (key : String) : Option String :=
  clients.foldl (fun acc c =>
    match c.name, c.pan with
    | some n, some p =>
        if !n.toList.isEmpty && !p.toList.isEmpty && upperStr (pyStrip n) = key
        then some p else acc
    | _, _ => acc) none

/-- Embeds `fill_pan` of `sync_to_db` step 3: a row with falsy pan and
truthy name takes `name_map.get(name.strip().upper(), None)` as its pan;
any other row is unchanged. -/
def fill_pan (clients : List Client) (r : Row) : Row :=
  if !truthy r.pan && truthy r.name then
    { r with pan := nameMapGet clients (upperStr (pyStrip (r.name.getD ""))) }
  else r

/-- `df['pan'] = df.apply(fill_pan, axis=1)`: each row is resolved
independently against the persisted index. -/
def resolveBatch (clients : List Client) (batch : List Row) : List Row :=
  batch.map (fill_pan clients)

/-- Round-half-to-even to an integer, the rounding of Python `round`. -/
def rhe (x : ℚ) : ℤ :=
  let f := Int.floor x
  let r := x - f
  if r < 1 / 2 then f
  else if r = 1 / 2 then (if f % 2 = 0 then f else f + 1)
  else f + 1

/-- Python `round(x, n)`: round half to even at `n` decimal places. -/
def roundTo (n : ℕ) (x : ℚ) : ℚ := (rhe (x * 10 ^ n) : ℚ) / 10 ^ n

/-- The persisted `portfolio_snapshot` table, keyed by `(pan, scheme_name)`. -/
abbrev PosStore := List ((String × String) × Position)

/-- Reads the snapshot row of one key: the first matching entry, as the
`.eq('pan', ...).eq('scheme_name', ...)` query returns it. -/
def lookupPos : PosStore → (String × String) → Option Position
  | [], _ => none
  | e :: es, k => if e.1 = k then some e.2 else lookupPos es k

/-- Whether the store holds an entry with the given key. -/
def hasKey : PosStore → (String × String) → Bool
  | [], _ => false
  | e :: es, k => decide (e.1 = k) || hasKey es k

/-- The keyed `upsert(..., on_conflict='pan,scheme_name')`: replace the
entry of an existing key, append otherwise. -/
def upsertPos (st : PosStore) (k : String × String) (p : Position) : PosStore :=
  if hasKey st k then st.map (fun e => if e.1 = k then (k, p) else e)
  else st ++ [(k, p)]

/-- `float(res.data[0]['total_units']) if res.data else 0.0`. -/
def storedUnits (store : PosStore) (k : String × String) : ℚ :=
  match lookupPos store k with
  | some pos => pos.total_units
  | none => 0

/-- The `nav_map` dictionary of `fetch_latest_navs`, with the
`.get(scheme, 0.0)` lookup of the merge loop: last entry wins, default 0. -/
def navLookup (m : List (String × ℚ)) (scheme : String) : ℚ :=
  m.foldl (fun acc e => if e.1 = scheme then e.2 else acc) 0

/-- Embeds one iteration of the merge loop of `sync_to_db` step 7
(`app.py` lines 213-235): baseline 0 in reset mode and the persisted units
otherwise, `final_units = baseline + net_change`,
`current_value = round(final_units * nav, 2)`, `total_units` stored as
`round(final_units, 4)`. -/
def mergePosition (store : PosStore) (is_reset : Bool) (nav_map : List (String × ℚ))
    (pan scheme : String) (net_change : ℚ) : Position :=
  let current_units : ℚ := if is_reset then 0 else storedUnits store (pan, scheme)
  let final_units := current_units + net_change
  let nav := navLookup nav_map scheme
  { total_units := roundTo 4 final_units,
    nav := nav,
    current_value := roundTo 2 (final_units * nav) }

/-- Embeds the price-refresh cascade of `daily_nav.py` (`run_engine`,
lines 100-108): `current_value` is overwritten with
`total_units * current_nav`, with no rounding, and the stored `total_units`
and `nav` columns are untouched. -/
def cascadeSnapshot (p : Position) (current_nav : ℚ) : Position :=
  { p with current_value := p.total_units * current_nav }

/-- `df[df['pan'].notna()]['pan'].unique()`: the distinct pans of the
batch, in first-appearance order. -/
def resetPans (batch : List Row) : List String :=
  batch.foldl (fun acc r =>
    match r.pan with
    | some p => if p ∈ acc then acc else acc ++ [p]
    | none => acc) []

/-- The reset deletion: remove every snapshot whose pan is in the list. -/
def resetDelete (store : PosStore) (pans : List String) : PosStore :=
  store.filter (fun e => decide (e.1.1 ∉ pans))

/-- The distinct `(pan, scheme)` group keys of the batch
(`portfolio_df.groupby(['pan', 'scheme'])`). -/
def keysOf (batch : List Row) : List (String × String) :=
  batch.foldl (fun acc r =>
    match r.pan, r.scheme with
    | some p, some s => if (p, s) ∈ acc then acc else acc ++ [(p, s)]
    | _, _ => acc) []

/-- Embeds `sync_to_db` steps 4 and 7 over a resolved batch.  `deleteOk`
models whether the reset batch-delete call succeeds; on failure the
exception is caught, `"Reset Failed"` is appended to the error list, and
the merge loop still runs in reset mode.  Each group key is merged against
the live store and upserted. -/
def syncPortfolio (store : PosStore) (batch : List Row) (is_reset deleteOk : Bool)
    (nav_map : List (String × ℚ)) : PosStore × List String :=
  let pans := resetPans batch
  let store1 :=
    if is_reset && !pans.isEmpty && deleteOk then resetDelete store pans else store
  let errs :=
    if is_reset && !pans.isEmpty then
      if deleteOk then ["RESET TRIGGERED"] else ["Reset Failed"]
    else []
  let final := (keysOf batch).foldl
    (fun st k => upsertPos st k
      (mergePosition st is_reset nav_map k.1 k.2 (aggregate batch k.1 k.2))) store1
  (final, errs)

/-- The partial upsert payload applied to an existing client: a field is
sent only when its batch value is truthy (`if v` in the payload
comprehension), so falsy batch fields leave the stored column unchanged. -/
def applyPayload (c : Client) (r : Row) : Client :=
  { pan := c.pan,
    name := if truthy r.name then r.name else c.name,
    email := if truthy r.email then r.email else c.email,
    phone := if truthy r.phone then r.phone else c.phone }

/-- Reads the `clients` row of one pan: the first matching entry. -/
def lookupClient : List Client → String → Option Client
  | [], _ => none
  | c :: cs, p => if c.pan = some p then some c else lookupClient cs p

/-- Whether the `clients` table holds a row with the given pan value. -/
def hasClientPan : List Client → Option String → Bool
  | [], _ => false
  | c :: cs, p => decide (c.pan = p) || hasClientPan cs p

/-- Embeds one `clients` upsert of `sync_to_db` step 5: only rows with
truthy pan and name are written; the payload keeps only truthy fields, so
an existing row is updated by `applyPayload` and a new row gets `none` for
its falsy fields. -/
def upsertClient (store : List Client) (r : Row) : List Client :=
  if truthy r.pan && truthy r.name then
    if hasClientPan store r.pan then
      store.map (fun c => if c.pan = r.pan then applyPayload c r else c)
    else
      store ++ [⟨r.pan, r.name,
        (if truthy r.email then r.email else none),
        (if truthy r.phone then r.phone else none)⟩]
  else store

/-- `df.drop_duplicates(subset=['pan'])`: keep the first row of each pan
value, in order. -/
def dedupByPan (rows : List Row) : List Row :=
  rows.foldl (fun acc r =>
    if acc.any (fun x => decide (x.pan = r.pan)) then acc else acc ++ [r]) []

/-- Embeds `sync_to_db` step 5: the pan-deduplicated batch is upserted row
by row into the persisted `clients` table. -/
def syncClients (store : List Client) (batch : List Row) : List Client :=
  (dedupByPan batch).foldl upsertClient store

/-- `nnLe c c2` says `c2` retains every contact field that is non-null in
`c` (non-null fields are never overwritten with null). -/
def nnLe (c c2 : Client) : Prop :=
  (c.name ≠ none → c2.name ≠ none) ∧ (c.email ≠ none → c2.email ≠ none) ∧
    (c.phone ≠ none → c2.phone ≠ none)

/-- Case analysis of the keyword classifier: `ADD` exactly on a credit
keyword, `DEDUCT` exactly on a debit keyword with no credit keyword,
`UNKNOWN` exactly when neither set matches. -/
lemma classifyBy_cases (credit debit : List String) (s : String) :
    (classifyBy credit debit s = Action.ADD ↔
      credit.any (fun k => strContains (upperStr s) k) = true) ∧
    (classifyBy credit debit s = Action.DEDUCT ↔
      (credit.any (fun k => strContains (upperStr s) k) = false ∧
       debit.any (fun k => strContains (upperStr s) k) = true)) ∧
    (classifyBy credit debit s = Action.UNKNOWN ↔
      (credit.any (fun k => strContains (upperStr s) k) = false ∧
       debit.any (fun k => strContains (upperStr s) k) = false)) := by
  unfold classifyBy
  cases hc : credit.any (fun k => strContains (upperStr s) k) <;>
    cases hd : debit.any (fun k => strContains (upperStr s) k) <;> simp

/-- Reflexivity of the non-null-retention relation. -/
lemma nnLe_refl (c : Client) : nnLe c c := ⟨id, id, id⟩

/-- Transitivity of the non-null-retention relation. -/
lemma nnLe_trans {a b c : Client} (h1 : nnLe a b) (h2 : nnLe b c) : nnLe a c :=
  ⟨fun h => h2.1 (h1.1 h), fun h => h2.2.1 (h1.2.1 h), fun h => h2.2.2 (h1.2.2 h)⟩

/-- A truthy optional string is not `none`. -/
lemma truthy_ne_none {o : Option String} (h : truthy o = true) : o ≠ none := by
  cases o with
  | none => simp [truthy] at h
  | some s => simp

/-- The partial payload never turns a non-null stored field into null. -/
lemma nnLe_applyPayload (c : Client) (r : Row) : nnLe c (applyPayload c r) := by
  refine ⟨fun h => ?_, fun h => ?_, fun h => ?_⟩
  · by_cases ht : truthy r.name = true
    · simpa [applyPayload, ht] using truthy_ne_none ht
    · simp only [Bool.not_eq_true] at ht
      simpa [applyPayload, ht] using h
  · by_cases ht : truthy r.email = true
    · simpa [applyPayload, ht] using truthy_ne_none ht
    · simp only [Bool.not_eq_true] at ht
      simpa [applyPayload, ht] using h
  · by_cases ht : truthy r.phone = true
    · simpa [applyPayload, ht] using truthy_ne_none ht
    · simp only [Bool.not_eq_true] at ht
      simpa [applyPayload, ht] using h

/-- A client lookup commutes with the per-pan update map of the upsert. -/
lemma lookupClient_map_upsert (store : List Client) (r : Row) (p : String) :
    lookupClient (store.map (fun c => if c.pan = r.pan then applyPayload c r else c)) p =
      (lookupClient store p).map (fun c => if c.pan = r.pan then applyPayload c r else c) := by
  induction store with
  | nil => rfl
  | cons c cs ih =>
    have hpan : (if c.pan = r.pan then applyPayload c r else c).pan = c.pan := by
      split <;> rfl
    rw [List.map_cons]
    simp only [lookupClient]
    rw [hpan]
    by_cases hp : c.pan = some p
    · simp only [if_pos hp]
      rfl
    · simp only [if_neg hp, ih]

/-- A successful client lookup survives appending rows. -/
lemma lookupClient_append_of_some (store l2 : List Client) (p : String) (c : Client)
    (h : lookupClient store p = some c) : lookupClient (store ++ l2) p = some c := by
  induction store with
  | nil => simp [lookupClient] at h
  | cons a as ih =>
    rw [List.cons_append]
    by_cases hp : a.pan = some p
    · simp only [lookupClient, if_pos hp] at h ⊢
      exact h
    · simp only [lookupClient, if_neg hp] at h ⊢
      exact ih h

/-- One upsert keeps every looked-up client present and retains its
non-null fields. -/
lemma lookupClient_upsert_nnLe (store : List Client) (r : Row) (p : String) (c : Client)
    (h : lookupClient store p = some c) :
    ∃ c2, lookupClient (upsertClient store r) p = some c2 ∧ nnLe c c2 := by
  unfold upsertClient
  by_cases hg : (truthy r.pan && truthy r.name) = true
  · rw [if_pos hg]
    by_cases hh : hasClientPan store r.pan = true
    · rw [if_pos hh, lookupClient_map_upsert, h]
      refine ⟨_, rfl, ?_⟩
      by_cases hc : c.pan = r.pan
      · simpa [hc] using nnLe_applyPayload c r
      · simpa [hc] using nnLe_refl c
    · rw [if_neg hh]
      exact ⟨c, lookupClient_append_of_some _ _ _ _ h, nnLe_refl c⟩
  · rw [if_neg hg]
    exact ⟨c, h, nnLe_refl c⟩

/-- The whole batch fold keeps every looked-up client present and retains
its non-null fields. -/
lemma lookupClient_foldl_nnLe (l : List Row) (store : List Client) (p : String) (c : Client)
    (h : lookupClient store p = some c) :
    ∃ c2, lookupClient (l.foldl upsertClient store) p = some c2 ∧ nnLe c c2 := by
  induction l generalizing store c with
  | nil => exact ⟨c, h, nnLe_refl c⟩
  | cons r rs ih =>
    obtain ⟨c1, h1, hle1⟩ := lookupClient_upsert_nnLe store r p c h
    obtain ⟨c2, h2, hle2⟩ := ih (upsertClient store r) c1 h1
    exact ⟨c2, h2, nnLe_trans hle1 hle2⟩

/-- An absent key means an empty snapshot lookup. -/
lemma lookupPos_of_hasKey_false (st : PosStore) (k : String × String)
    (h : hasKey st k = false) : lookupPos st k = none := by
  induction st with
  | nil => rfl
  | cons e es ih =>
    by_cases he : e.1 = k
    · simp [hasKey, he] at h
    · have h2 : hasKey es k = false := by simpa [hasKey, he] using h
      simp [lookupPos, he, ih h2]

/-- Updating an existing key makes its lookup return the new position. -/
lemma lookupPos_map_self (st : PosStore) (k : String × String) (p : Position)
    (h : hasKey st k = true) :
    lookupPos (st.map (fun e => if e.1 = k then (k, p) else e)) k = some p := by
  induction st with
  | nil => simp [hasKey] at h
  | cons e es ih =>
    by_cases he : e.1 = k
    · simp [lookupPos, he]
    · have h2 : hasKey es k = true := by simpa [hasKey, he] using h
      simp [lookupPos, he, ih h2]

/-- Appending a fresh key makes its lookup return the new position. -/
lemma lookupPos_append_self (st : PosStore) (k : String × String) (p : Position)
    (h : hasKey st k = false) :
    lookupPos (st ++ [(k, p)]) k = some p := by
  induction st with
  | nil => simp [lookupPos]
  | cons e es ih =>
    by_cases he : e.1 = k
    · simp [hasKey, he] at h
    · have h2 : hasKey es k = false := by simpa [hasKey, he] using h
      simp [lookupPos, he, ih h2]

/-- After an upsert, the upserted key reads back the written position. -/
lemma lookupPos_upsert_self (st : PosStore) (k : String × String) (p : Position) :
    lookupPos (upsertPos st k p) k = some p := by
  unfold upsertPos
  by_cases h : hasKey st k = true
  · rw [if_pos h]
    exact lookupPos_map_self st k p h
  · rw [if_neg h]
    exact lookupPos_append_self st k p (by simpa using h)

/-- The per-key update map leaves every other key's lookup unchanged. -/
lemma lookupPos_map_ne (st : PosStore) (k k2 : String × String) (p : Position)
    (h : k2 ≠ k) :
    lookupPos (st.map (fun e => if e.1 = k then (k, p) else e)) k2 = lookupPos st k2 := by
  induction st with
  | nil => rfl
  | cons e es ih =>
    by_cases he : e.1 = k
    · have hk : k ≠ k2 := Ne.symm h
      simp [lookupPos, he, hk, ih]
    · simp [lookupPos, he, ih]

/-- Appending a fresh key leaves every other key's lookup unchanged. -/
lemma lookupPos_append_ne (st : PosStore) (k k2 : String × String) (p : Position)
    (h : k2 ≠ k) : lookupPos (st ++ [(k, p)]) k2 = lookupPos st k2 := by
  induction st with
  | nil => simp [lookupPos, Ne.symm h]
  | cons e es ih => by_cases he : e.1 = k2 <;> simp [lookupPos, he, ih]

/-- An upsert leaves every other key's lookup unchanged. -/
lemma lookupPos_upsert_ne (st : PosStore) (k k2 : String × String) (p : Position)
    (h : k2 ≠ k) : lookupPos (upsertPos st k p) k2 = lookupPos st k2 := by
  unfold upsertPos
  by_cases hh : hasKey st k = true
  · rw [if_pos hh]
    exact lookupPos_map_ne st k k2 p h
  · rw [if_neg hh]
    exact lookupPos_append_ne st k k2 p h

/-- A key not touched by the merge loop keeps its pre-merge lookup. -/
lemma lookupPos_foldl_notmem (g : PosStore → String × String → Position)
    (l : List (String × String)) (st : PosStore) (k : String × String) (hk : k ∉ l) :
    lookupPos (l.foldl (fun st2 k2 => upsertPos st2 k2 (g st2 k2)) st) k = lookupPos st k := by
  induction l generalizing st with
  | nil => rfl
  | cons a as ih =>
    have h1 : k ≠ a := fun hc => hk (hc ▸ List.mem_cons_self a as)
    have h2 : k ∉ as := fun hc => hk (List.mem_cons_of_mem a hc)
    rw [List.foldl_cons, ih _ h2, lookupPos_upsert_ne _ _ _ _ h1]

/-- When the written position does not depend on the evolving store, every
key of a duplicate-free merge loop reads back its own written position. -/
lemma lookupPos_foldl_mem (g : PosStore → String × String → Position)
    (hg : ∀ st st2 k2, g st k2 = g st2 k2)
    (l : List (String × String)) (st : PosStore) (k : String × String) :
    l.Nodup → k ∈ l →
    lookupPos (l.foldl (fun st2 k2 => upsertPos st2 k2 (g st2 k2)) st) k = some (g st k) := by
  induction l generalizing st with
  | nil => intro _ hk; cases hk
  | cons a as ih =>
    intro hnd hk
    rw [List.foldl_cons]
    rcases List.mem_cons.mp hk with h | h
    · subst h
      have hnotin : k ∉ as := (List.nodup_cons.mp hnd).1
      rw [lookupPos_foldl_notmem _ _ _ _ hnotin, lookupPos_upsert_self]
    · have hstep := ih (upsertPos st a (g st a)) (List.nodup_cons.mp hnd).2 h
      rw [hstep, hg (upsertPos st a (g st a)) st k]

/-- The group-key accumulator never introduces duplicates. -/
lemma keysOf_fold_nodup (l : List Row) (acc : List (String × String)) (h : acc.Nodup) :
    (l.foldl (fun acc2 r =>
      match r.pan, r.scheme with
      | some p, some s => if (p, s) ∈ acc2 then acc2 else acc2 ++ [(p, s)]
      | _, _ => acc2) acc).Nodup := by
  induction l generalizing acc with
  | nil => exact h
  | cons r rs ih =>
    rw [List.foldl_cons]
    apply ih
    cases hp : r.pan with
    | none => exact h
    | some p =>
      cases hs : r.scheme with
      | none => exact h
      | some s =>
        by_cases hmem : (p, s) ∈ acc
        · simpa [hmem] using h
        · simp only [hmem, if_neg]
          simp [List.nodup_append, h, hmem]

/-- The group keys of a batch are duplicate-free. -/
lemma keysOf_nodup (batch : List Row) : (keysOf batch).Nodup := by
  unfold keysOf
  exact keysOf_fold_nodup batch [] List.nodup_nil

/-- Evaluates `roundTo` on a concrete value whose scaled fractional part
is below one half, given explicit floor bounds. -/
lemma roundTo_eval (n : ℕ) (x : ℚ) (f : ℤ) (h1 : (f : ℚ) ≤ x * 10 ^ n)
    (h2 : x * 10 ^ n < f + 1) (h3 : x * 10 ^ n - f < 1 / 2) :
    roundTo n x = (f : ℚ) / 10 ^ n := by
  have hfl : ⌊x * 10 ^ n⌋ = f := Int.floor_eq_iff.mpr ⟨h1, h2⟩
  simp only [roundTo, rhe, hfl]
  rw [if_pos h3]

/-- C1: the claim that a row with an unknown action contributes exactly 0
to its `(identifier, scheme)` key is false: the aggregation lambda of
`sync_to_db` negates units only for `DEDUCT` and adds `+units` for every
other action, so a resolved row with `action = UNKNOWN` and `units = 5`
contributes `5`, not `0`. -/
theorem C1_counterexample :
    aggregate [(⟨some "P1", some "N", none, none, some "S1", 5,
      Action.UNKNOWN, 2⟩ : Row)] "P1" "S1" = 5 ∧ (5 : ℚ) ≠ 0 := by
  constructor
  · norm_num [aggregate, rowMatches, signedUnits]
    decide
  · norm_num

/-- C1 (amended): a resolved row with non-null identifier and scheme
contributes `-units` when its action is `DEDUCT` and `+units` for any
other action, `UNKNOWN` included. -/
theorem C1_amended (r : Row) (pan scheme : String) (hp : r.pan = some pan)
    (hs : r.scheme = some scheme) :
    aggregate [r] pan scheme =
      (if r.action = Action.DEDUCT then -r.units else r.units) := by
  simp [aggregate, rowMatches, hp, hs, signedUnits]

/-- Witness for the amended C1 at a concrete ADD row. -/
theorem C1_witness :
    (⟨some "P1", some "N", none, none, some "S1", 7, Action.ADD, 2⟩ : Row).pan = some "P1" ∧
    (⟨some "P1", some "N", none, none, some "S1", 7, Action.ADD, 2⟩ : Row).scheme = some "S1" ∧
    aggregate [(⟨some "P1", some "N", none, none, some "S1", 7, Action.ADD, 2⟩ : Row)]
      "P1" "S1" =
      (if (⟨some "P1", some "N", none, none, some "S1", 7, Action.ADD, 2⟩ : Row).action =
        Action.DEDUCT then -(7 : ℚ) else 7) :=
  ⟨rfl, rfl, C1_amended _ "P1" "S1" rfl rfl⟩

/-- C2: the claim that resolution is two-pass with an in-batch index
extension is false: `sync_to_db` builds `name_map` solely from the
persisted `clients` table, so in the spec's own scenario with no persisted
record the identifier-less row keeps a null identifier. -/
theorem C2_counterexample :
    (resolveBatch []
      [⟨some "ABCDE1234F", some "JOHN DOE", none, none, none, 0, Action.UNKNOWN, 2⟩,
       ⟨none, some "john doe", none, none, none, 0, Action.UNKNOWN, 3⟩]).map
        (fun r => r.pan) = [some "ABCDE1234F", none] ∧
    (resolveBatch []
      [⟨some "ABCDE1234F", some "JOHN DOE", none, none, none, 0, Action.UNKNOWN, 2⟩,
       ⟨none, some "john doe", none, none, none, 0, Action.UNKNOWN, 3⟩]).map
        (fun r => r.pan) ≠ [some "ABCDE1234F", some "ABCDE1234F"] := by
  constructor <;> decide

/-- C2 (amended): identity resolution is a single pass per row against the
index built from the persisted clients only: an identifier-less named row
takes the persisted mapping of its normalized (stripped, uppercased) name,
or stays null; a row with a truthy identifier is unchanged; and rows are
resolved independently of the rest of the batch. -/
theorem C2_amended (clients : List Client) (r : Row) (b1 b2 : List Row) :
    (truthy r.pan = false → truthy r.name = true →
      (fill_pan clients r).pan =
        nameMapGet clients (upperStr (pyStrip (r.name.getD "")))) ∧
    (truthy r.pan = true → fill_pan clients r = r) ∧
    resolveBatch clients (b1 ++ b2) =
      resolveBatch clients b1 ++ resolveBatch clients b2 := by
  refine ⟨?_, ?_, by simp [resolveBatch]⟩
  · intro h1 h2
    simp [fill_pan, h1, h2]
  · intro h1
    simp [fill_pan, h1]

/-- Witness for the amended C2: a persisted record resolves a
case/whitespace-insensitive name match. -/
theorem C2_witness :
    truthy (⟨none, some " john doe ", none, none, none, 0, Action.UNKNOWN, 3⟩ : Row).pan
      = false ∧
    truthy (⟨none, some " john doe ", none, none, none, 0, Action.UNKNOWN, 3⟩ : Row).name
      = true ∧
    (fill_pan [⟨some "ABCDE1234F", some "JOHN DOE", none, none⟩]
      (⟨none, some " john doe ", none, none, none, 0, Action.UNKNOWN, 3⟩ : Row)).pan =
      nameMapGet [⟨some "ABCDE1234F", some "JOHN DOE", none, none⟩]
        (upperStr (pyStrip
          ((⟨none, some " john doe ", none, none, none, 0, Action.UNKNOWN, 3⟩ : Row).name.getD
            ""))) ∧
    (fill_pan [⟨some "ABCDE1234F", some "JOHN DOE", none, none⟩]
      (⟨none, some " john doe ", none, none, none, 0, Action.UNKNOWN, 3⟩ : Row)).pan =
      some "ABCDE1234F" :=
  ⟨rfl, rfl,
    (C2_amended [⟨some "ABCDE1234F", some "JOHN DOE", none, none⟩]
      (⟨none, some " john doe ", none, none, none, 0, Action.UNKNOWN, 3⟩ : Row) [] []).1
      rfl rfl,
    by decide⟩

/-- C3: the claim that a description containing "withdrawal" classifies as
`DEDUCT` is false: neither ledger branch has a withdrawal keyword, so
"Withdrawal" classifies as `UNKNOWN` in both. -/
theorem C3_counterexample :
    classifyR33 "Withdrawal" ≠ Action.DEDUCT ∧
    classifyKfinT "Withdrawal" ≠ Action.DEDUCT ∧
    classifyR33 "Withdrawal" = Action.UNKNOWN ∧
    classifyKfinT "Withdrawal" = Action.UNKNOWN := by
  refine ⟨?_, ?_, ?_, ?_⟩ <;> decide

/-- C3 (amended): action classification is a pure case-insensitive
substring function of the nature/description string, with credit keywords
checked first; the R33 branch uses credit `{PURCHASE, SYSTEMATIC,
SWITCH IN, REINVESTMENT}` and debit `{REDEMPTION, TRANSFER, SWITCH OUT}`,
the KFIN branch credit `{PURCHASE, S T P IN, SWITCH IN}` and debit
`{SHIFT OUT, REDEMPTION, SWITCH OUT}`; any other description yields
`UNKNOWN` ("withdrawal" is in neither set). -/
theorem C3_amended (s : String) :
    (classifyR33 s = Action.ADD ↔
      creditR33.any (fun k => strContains (upperStr s) k) = true) ∧
    (classifyR33 s = Action.DEDUCT ↔
      (creditR33.any (fun k => strContains (upperStr s) k) = false ∧
       debitR33.any (fun k => strContains (upperStr s) k) = true)) ∧
    (classifyR33 s = Action.UNKNOWN ↔
      (creditR33.any (fun k => strContains (upperStr s) k) = false ∧
       debitR33.any (fun k => strContains (upperStr s) k) = false)) ∧
    (classifyKfinT s = Action.ADD ↔
      creditKfin.any (fun k => strContains (upperStr s) k) = true) ∧
    (classifyKfinT s = Action.DEDUCT ↔
      (creditKfin.any (fun k => strContains (upperStr s) k) = false ∧
       debitKfin.any (fun k => strContains (upperStr s) k) = true)) ∧
    (classifyKfinT s = Action.UNKNOWN ↔
      (creditKfin.any (fun k => strContains (upperStr s) k) = false ∧
       debitKfin.any (fun k => strContains (upperStr s) k) = false)) := by
  obtain ⟨h1, h2, h3⟩ := classifyBy_cases creditR33 debitR33 s
  obtain ⟨h4, h5, h6⟩ := classifyBy_cases creditKfin debitKfin s
  exact ⟨h1, h2, h3, h4, h5, h6⟩

/-- C4 (confirmed): under a reset the merge baseline is 0 and the
persisted store is never read (the merge result equals the one over an
empty store); without a reset the baseline is the persisted units,
defaulting to 0 for an absent key; the spec scenario of net delta -5
against a persisted 1000 under reset ends at `total_units = -5`. -/
theorem C4_reset_baseline (store : PosStore) (nav_map : List (String × ℚ))
    (p s : String) (d : ℚ) :
    (mergePosition store true nav_map p s d).total_units = roundTo 4 d ∧
    mergePosition store true nav_map p s d = mergePosition [] true nav_map p s d ∧
    (mergePosition store false nav_map p s d).total_units =
      roundTo 4 (storedUnits store (p, s) + d) ∧
    (mergePosition [(("X1", "S"), ⟨1000, 0, 0⟩)] true [] "X1" "S" (-5)).total_units
      = -5 := by
  refine ⟨?_, rfl, rfl, ?_⟩
  · show roundTo 4 (0 + d) = roundTo 4 d
    rw [zero_add]
  · show roundTo 4 ((0 : ℚ) + (-5)) = -5
    rw [(by norm_num : ((0 : ℚ) + (-5)) = -5),
      roundTo_eval 4 (-5 : ℚ) (-50000) (by norm_num) (by norm_num) (by norm_num)]
    norm_num

/-- C5: the claim that every persisted Position satisfies
`currentValue == round(totalUnits * nav, 2)` after every write is false
for the price-refresh cascade of `daily_nav.py`, which writes
`total_units * nav` with no rounding: with `total_units = 1` and
`nav = 10.123` the cascade stores `10.123`, not `10.12`. -/
theorem C5_counterexample :
    (cascadeSnapshot ⟨1, 10123 / 1000, 1012 / 100⟩ (10123 / 1000)).current_value ≠
      roundTo 2
        ((cascadeSnapshot ⟨1, 10123 / 1000, 1012 / 100⟩ (10123 / 1000)).total_units *
         (cascadeSnapshot ⟨1, 10123 / 1000, 1012 / 100⟩ (10123 / 1000)).nav) := by
  show (1 : ℚ) * (10123 / 1000) ≠ roundTo 2 ((1 : ℚ) * (10123 / 1000))
  rw [roundTo_eval 2 ((1 : ℚ) * (10123 / 1000)) 1012 (by norm_num) (by norm_num)
    (by norm_num)]
  norm_num

/-- C5 (amended): in the sync merge, `current_value` is the 2-decimal
rounding of the product of the *unrounded* final units with the nav, and
`total_units` is stored rounded to 4 decimals; the external price-refresh
cascade instead writes `current_value = total_units * nav` with no
rounding at all and leaves the stored nav column unchanged, so the
2-decimal invariant is not maintained by the cascade. -/
theorem C5_amended (store : PosStore) (is_reset : Bool)
    (nav_map : List (String × ℚ)) (p s : String) (d : ℚ) (q : Position) (nv : ℚ) :
    (mergePosition store is_reset nav_map p s d).current_value =
      roundTo 2 (((if is_reset then 0 else storedUnits store (p, s)) + d) *
        navLookup nav_map s) ∧
    (mergePosition store is_reset nav_map p s d).total_units =
      roundTo 4 ((if is_reset then 0 else storedUnits store (p, s)) + d) ∧
    (cascadeSnapshot q nv).current_value = q.total_units * nv ∧
    (cascadeSnapshot q nv).total_units = q.total_units ∧
    (cascadeSnapshot q nv).nav = q.nav :=
  ⟨rfl, rfl, rfl, rfl, rfl⟩

/-- C6 (code bug): the claim's failing input, evaluated under the exact
decimal arithmetic the spec mandates.  A single key receiving ADD rows of
0.1, 0.2 and 0.3 units nets exactly 3/5 in either row order — this is the
value the claim promises for both orders.  The program instead accumulates
`signed_units` in pandas float64 (`app.py` line 203), where the first
order nets 0.6000000000000001 and the reversed order nets 0.6, so
permuting rows changes the stored mapping: the code deviates from the
spec's explicit exact-decimal requirement, and that float accumulation is
the slip this theorem cannot exhibit inside the exact embedding. -/
theorem C6_failing_input :
    aggregate [⟨some "P", some "N", none, none, some "S", 1 / 10, Action.ADD, 2⟩,
               ⟨some "P", some "N", none, none, some "S", 2 / 10, Action.ADD, 3⟩,
               ⟨some "P", some "N", none, none, some "S", 3 / 10, Action.ADD, 4⟩]
      "P" "S" = 3 / 5 ∧
    aggregate [⟨some "P", some "N", none, none, some "S", 3 / 10, Action.ADD, 4⟩,
               ⟨some "P", some "N", none, none, some "S", 2 / 10, Action.ADD, 3⟩,
               ⟨some "P", some "N", none, none, some "S", 1 / 10, Action.ADD, 2⟩]
      "P" "S" = 3 / 5 := by
  constructor
  · norm_num [aggregate, rowMatches, signedUnits,
      show Action.ADD ≠ Action.DEDUCT from by decide]
  · norm_num [aggregate, rowMatches, signedUnits,
      show Action.ADD ≠ Action.DEDUCT from by decide]

/-- C7: the claim that the last-seen row of a duplicated identifier wins
is false: `drop_duplicates(subset=['pan'])` keeps the first occurrence, so
with two rows for pan "P2" carrying different emails the first email is
the one written. -/
theorem C7_counterexample :
    syncClients []
      [⟨some "P2", some "A", some "first@mail", none, none, 0, Action.UNKNOWN, 2⟩,
       ⟨some "P2", some "A", some "second@mail", none, none, 0, Action.UNKNOWN, 3⟩] =
      [⟨some "P2", some "A", some "first@mail", none⟩] ∧
    (some "first@mail" : Option String) ≠ some "second@mail" := by
  constructor <;> decide

/-- C7 (amended): the identity upsert never overwrites a non-null stored
field with null (falsy fields are omitted from the payload), and for
several batch rows with the same identifier the row seen first wins — the
batch is deduplicated keeping the first occurrence per identifier, so a
two-row batch with equal pans collapses to the upsert of the first row. -/
theorem C7_amended (store : List Client) (batch : List Row) (p : String)
    (c c2 : Client) (r1 r2 : Row) :
    (lookupClient store p = some c →
      lookupClient (syncClients store batch) p = some c2 → nnLe c c2) ∧
    (r1.pan = r2.pan → syncClients store [r1, r2] = upsertClient store r1) := by
  constructor
  · intro h1 h2
    obtain ⟨c3, h3, hle⟩ := lookupClient_foldl_nnLe (dedupByPan batch) store p c h1
    unfold syncClients at h2
    rw [h3] at h2
    cases h2
    exact hle
  · intro h
    unfold syncClients dedupByPan
    simp [h]

/-- Witness for the amended C7: a stored email survives an upsert whose
batch row has no email, and a same-pan pair collapses to its first row. -/
theorem C7_witness :
    nnLe ⟨some "P1", some "OLD NAME", some "old@mail", none⟩
      ⟨some "P1", some "NEW NAME", some "old@mail", none⟩ ∧
    syncClients [⟨some "P1", some "OLD NAME", some "old@mail", none⟩]
      [⟨some "P2", some "A", some "first@mail", none, none, 0, Action.UNKNOWN, 2⟩,
       ⟨some "P2", some "A", some "second@mail", none, none, 0, Action.UNKNOWN, 3⟩] =
      upsertClient [⟨some "P1", some "OLD NAME", some "old@mail", none⟩]
        ⟨some "P2", some "A", some "first@mail", none, none, 0, Action.UNKNOWN, 2⟩ := by
  constructor
  · exact (C7_amended [⟨some "P1", some "OLD NAME", some "old@mail", none⟩]
      [⟨some "P1", some "NEW NAME", none, none, none, 0, Action.UNKNOWN, 2⟩] "P1"
      ⟨some "P1", some "OLD NAME", some "old@mail", none⟩
      ⟨some "P1", some "NEW NAME", some "old@mail", none⟩
      ⟨some "P2", some "A", some "first@mail", none, none, 0, Action.UNKNOWN, 2⟩
      ⟨some "P2", some "A", some "second@mail", none, none, 0, Action.UNKNOWN, 3⟩).1
      (by decide) (by decide)
  · exact (C7_amended [⟨some "P1", some "OLD NAME", some "old@mail", none⟩]
      [⟨some "P1", some "NEW NAME", none, none, none, 0, Action.UNKNOWN, 2⟩] "P1"
      ⟨some "P1", some "OLD NAME", some "old@mail", none⟩
      ⟨some "P1", some "NEW NAME", some "old@mail", none⟩
      ⟨some "P2", some "A", some "first@mail", none, none, 0, Action.UNKNOWN, 2⟩
      ⟨some "P2", some "A", some "second@mail", none, none, 0, Action.UNKNOWN, 3⟩).2 rfl

/-- C8: the claim that a row with a malformed numeric cell is skipped
entirely and the failure recorded is false: `clean_float` coerces the
failure to `0.0` and the row is retained (with zero units) rather than
skipped, and `process_rta_files` records no failure anywhere. -/
theorem C8_counterexample :
    extractR33 (some "Fund A") (some "JOHN") Cell.bad (some "PURCHASE") 7 ≠ none ∧
    extractR33 (some "Fund A") (some "JOHN") Cell.bad (some "PURCHASE") 7 =
      some ⟨none, some "JOHN", none, none, some "Fund A", 0, Action.ADD, 7⟩ := by
  constructor <;> decide

/-- C8 (amended): a row-level failure never aborts the file — the rows of
a file are extracted independently, so processing distributes over
concatenation — but a malformed numeric cell does not skip the row: it is
coerced to `0.0` (exactly as a missing value is) and the row is retained;
no failure record is produced. -/
theorem C8_amended (xs ys : List R33Input) (sch nm nat : Option String) (sr : ℕ) :
    processR33 (xs ++ ys) = processR33 xs ++ processR33 ys ∧
    clean_float Cell.bad = 0 ∧ clean_float Cell.na = 0 ∧
    extractR33 sch nm Cell.bad nat sr = extractR33 sch nm (Cell.num 0) nat sr := by
  refine ⟨?_, rfl, rfl, rfl⟩
  simp [processR33]

/-- C9 (confirmed): a KFIN ledger row whose cleaned description contains
an exclusion keyword ("pledging" or "rej.", case-insensitively via
lowercasing) is dropped at extraction regardless of every other field, so
it never reaches aggregation, identity sync, or the staging log. -/
theorem C9_excluded (name scheme : Option String) (u : Cell) (desc : Option String)
    (srcRow : ℕ) (d0 : String) (hc : clean_str (some (desc.getD "")) = some d0)
    (hk : kfinExcluded (lowerStr d0) = true) :
    extractKfinT name scheme u desc srcRow = none := by
  unfold extractKfinT
  rw [hc]
  simp [hk]

/-- Witness for C9 at the spec's own scenario row. -/
theorem C9_witness :
    clean_str (some ((some "Units Pledging confirmation").getD "")) =
      some "Units Pledging confirmation" ∧
    kfinExcluded (lowerStr "Units Pledging confirmation") = true ∧
    extractKfinT (some "A Person") (some "Fund X") (Cell.num 10)
      (some "Units Pledging confirmation") 4 = none :=
  ⟨by decide, by decide,
    C9_excluded (some "A Person") (some "Fund X") (Cell.num 10)
      (some "Units Pledging confirmation") 4 "Units Pledging confirmation"
      (by decide) (by decide)⟩

/-- C10 (confirmed): when the reset deletion fails, the failure is
appended to the error list ("Reset Failed") but the merge still runs in
reset mode: every `(pan, scheme)` group key of the batch is overwritten
with the merge of that batch's net delta against a zero baseline, while
every key absent from the batch — including other schemes of the same
investors — keeps its persisted position, undeleted. -/
theorem C10_reset_failure (store : PosStore) (batch : List Row)
    (nav_map : List (String × ℚ)) (k : String × String)
    (hpans : resetPans batch ≠ []) :
    "Reset Failed" ∈ (syncPortfolio store batch true false nav_map).2 ∧
    (k ∈ keysOf batch →
      lookupPos (syncPortfolio store batch true false nav_map).1 k =
        some (mergePosition store true nav_map k.1 k.2 (aggregate batch k.1 k.2))) ∧
    (k ∉ keysOf batch →
      lookupPos (syncPortfolio store batch true false nav_map).1 k =
        lookupPos store k) := by
  have hne : (resetPans batch).isEmpty = false := by
    cases hp : (resetPans batch).isEmpty
    · rfl
    · exact absurd (List.isEmpty_iff.mp hp) hpans
  have hstore1 : (syncPortfolio store batch true false nav_map).1 =
      (keysOf batch).foldl
        (fun st k2 => upsertPos st k2
          (mergePosition st true nav_map k2.1 k2.2 (aggregate batch k2.1 k2.2))) store := by
    simp [syncPortfolio, hne]
  refine ⟨?_, ?_, ?_⟩
  · simp [syncPortfolio, hne]
  · intro hk
    rw [hstore1]
    exact lookupPos_foldl_mem
      (fun st k2 => mergePosition st true nav_map k2.1 k2.2 (aggregate batch k2.1 k2.2))
      (fun _ _ _ => rfl) (keysOf batch) store k (keysOf_nodup batch) hk
  · intro hk
    rw [hstore1]
    exact lookupPos_foldl_notmem
      (fun st k2 => mergePosition st true nav_map k2.1 k2.2 (aggregate batch k2.1 k2.2))
      (keysOf batch) store k hk

/-- Witness for C10: a one-row reset batch with a failed delete rewrites
its own key to the batch delta and leaves the investor's other scheme
untouched. -/
theorem C10_witness :
    resetPans [(⟨some "X1", some "N", none, none, some "A", 5, Action.DEDUCT, 2⟩ : Row)]
      ≠ [] ∧
    ("X1", "A") ∈ keysOf
      [(⟨some "X1", some "N", none, none, some "A", 5, Action.DEDUCT, 2⟩ : Row)] ∧
    ("X1", "B") ∉ keysOf
      [(⟨some "X1", some "N", none, none, some "A", 5, Action.DEDUCT, 2⟩ : Row)] ∧
    "Reset Failed" ∈ (syncPortfolio
      [(("X1", "A"), ⟨1000, 10, 10000⟩), (("X1", "B"), ⟨7, 10, 70⟩)]
      [⟨some "X1", some "N", none, none, some "A", 5, Action.DEDUCT, 2⟩]
      true false [("A", 10)]).2 ∧
    lookupPos (syncPortfolio
      [(("X1", "A"), ⟨1000, 10, 10000⟩), (("X1", "B"), ⟨7, 10, 70⟩)]
      [⟨some "X1", some "N", none, none, some "A", 5, Action.DEDUCT, 2⟩]
      true false [("A", 10)]).1 ("X1", "A") =
      some (mergePosition [(("X1", "A"), ⟨1000, 10, 10000⟩), (("X1", "B"), ⟨7, 10, 70⟩)]
        true [("A", 10)] "X1" "A"
        (aggregate [⟨some "X1", some "N", none, none, some "A", 5, Action.DEDUCT, 2⟩]
          "X1" "A")) ∧
    lookupPos (syncPortfolio
      [(("X1", "A"), ⟨1000, 10, 10000⟩), (("X1", "B"), ⟨7, 10, 70⟩)]
      [⟨some "X1", some "N", none, none, some "A", 5, Action.DEDUCT, 2⟩]
      true false [("A", 10)]).1 ("X1", "B") =
      lookupPos [(("X1", "A"), ⟨1000, 10, 10000⟩), (("X1", "B"), ⟨7, 10, 70⟩)]
        ("X1", "B") := by
  refine ⟨by decide, by decide, by decide, ?_, ?_, ?_⟩
  · exact (C10_reset_failure
      [(("X1", "A"), ⟨1000, 10, 10000⟩), (("X1", "B"), ⟨7, 10, 70⟩)]
      [⟨some "X1", some "N", none, none, some "A", 5, Action.DEDUCT, 2⟩]
      [("A", 10)] ("X1", "A") (by decide)).1
  · exact (C10_reset_failure
      [(("X1", "A"), ⟨1000, 10, 10000⟩), (("X1", "B"), ⟨7, 10, 70⟩)]
      [⟨some "X1", some "N", none, none, some "A", 5, Action.DEDUCT, 2⟩]
      [("A", 10)] ("X1", "A") (by decide)).2.1 (by decide)
  · exact (C10_reset_failure
      [(("X1", "A"), ⟨1000, 10, 10000⟩), (("X1", "B"), ⟨7, 10, 70⟩)]
      [⟨some "X1", some "N", none, none, some "A", 5, Action.DEDUCT, 2⟩]
      [("A", 10)] ("X1", "B") (by decide)).2.2 (by decide)

end Samruddhi
